import Mathlib

/-!
Shallow embedding of the call-session relay server in `src/index.js`.

JavaScript strings are modelled as `List Char`; JS `null` as `Option.none`.
The per-session mutable object `{ transcript, streamSid }` becomes the
`Session` structure, the process-wide `sessions` `Map` becomes an
association list with JS-`Map` get/set/delete semantics, and each socket
callback becomes a pure function from the state it reads to the state it
writes plus the list of messages it sends.
-/

namespace VoiceAgent

/-- A JavaScript string, modelled as its list of Unicode code points. -/
abbrev Str := List Char

/-- JS `String.prototype.trim()`: strip leading and trailing whitespace. -/
def jsTrim (s : Str) : Str :=
  ((s.dropWhile Char.isWhitespace).reverse.dropWhile Char.isWhitespace).reverse

/-- JS `String.prototype.split(sep)` for a one-character separator `c`.
`split` never returns an empty array: splitting the empty string yields
`[""]`, and a separator at either end yields an empty piece there. -/
def splitChar (c : Char) : Str → List Str
  | [] => [[]]
  | x :: xs =>
    match splitChar c xs with
    | [] => [[]]
    | y :: ys => if x = c then [] :: y :: ys else (x :: y) :: ys

/-- JS `Array.prototype.join(sep)`: concatenate with `sep` between pieces. -/
def joinSep (sep : Str) : List Str → Str
  | [] => []
  | [x] => x
  | x :: y :: ys => x ++ sep ++ joinSep sep (y :: ys)

/-- JS `String.prototype.includes(needle)`: substring containment. -/
def jsIncludes (hay needle : Str) : Bool :=
  match hay with
  | [] => needle.isEmpty
  | _ :: rest => needle.isPrefixOf hay || jsIncludes rest needle

/-- The placeholder sentinel filtered out by `cleanTranscript`
(`line.includes("Agent: Agent message not found")` in the source). -/
def sentinel : Str := "Agent: Agent message not found".data

/-- The line-filtering pipeline of `cleanTranscript` (src/index.js:253-256):
split on `"\n"`, drop lines containing the sentinel substring, drop lines
that are empty after trimming. -/
def cleanLines (transcript : Str) : List Str :=
  ((splitChar '\n' transcript).filter
      (fun line => !(jsIncludes line sentinel))).filter
    (fun line => !(jsTrim line).isEmpty)

/-- The `"\n\n"` separator `cleanTranscript` joins with. -/
def newline2 : Str := ['\n', '\n']

/-- `cleanTranscript` (src/index.js:252-258): the surviving lines joined
with `"\n\n"`. -/
def cleanTranscript (transcript : Str) : Str :=
  joinSep newline2 (cleanLines transcript)

/-- The per-session mutable state: `{ transcript: "", streamSid: null }`
(src/index.js:109-112). -/
structure Session where
  transcript : Str
  streamSid : Option Str
  deriving Repr, DecidableEq

/-- The initial session object (src/index.js:109-112). -/
def initSession : Session := { transcript := [], streamSid := none }

/-- `ws` WebSocket ready states; `OPEN` is the state tested by
`vapiWs.readyState === WebSocket.OPEN`. -/
inductive WsState
  | CONNECTING
  | OPEN
  | CLOSING
  | CLOSED
  deriving Repr, DecidableEq

/-- A parsed inbound Twilio message, by its `event` field
(src/index.js:195-211). -/
inductive TwilioEvent
  | media (payload : Str)
  | start (streamSid : Str)
  | other (event : Str)
  deriving Repr, DecidableEq

/-- A parsed inbound VAPI message, by its `type` field
(src/index.js:154-179). -/
inductive VapiEvent
  | transcript (text : Str)
  | assistant_response (text : Str)
  | audio (chunk : Str)
  | error (message : Str)
  | other (ty : Str)
  deriving Repr, DecidableEq

/-- The session-start configuration carried by the `sessionUpdate` message
(src/index.js:127-142). -/
structure VapiConfig where
  encoding : Str
  sampleRate : Nat
  voice : Str
  prompt : Str
  temperature : ℚ
  deriving Repr, DecidableEq

/-- `SYSTEM_MESSAGE` (src/index.js:32-51), the assistant prompt verbatim. -/
def SYSTEM_MESSAGE : Str :=
  ("## INSTRUCTIONS:\n"
    ++ "- You are The Codebender, an energetic AI Voice Agent on a mission to transform everyday coders into codebenders, people who bend lines of code into digital masterpieces!\n"
    ++ "- Please make sure to respond with a helpful voice via audio\n"
    ++ "- Your response should be concise and to the point, keep it short. Bring the conversation back on topic if necessary.\n"
    ++ "- You can ask the user questions. \n"
    ++ "\n"
    ++ "------\n"
    ++ "## PERSONALITY:\n"
    ++ "- Be upbeat and super kind\n"
    ++ "- Speak FAST as if excited\n"
    ++ "\n"
    ++ "-----\n"
    ++ "## GOAL: \n"
    ++ "- Your primary objective is to identify if the contact is interested in joining the Codebender Accelerator program.\n"
    ++ "- If they express interest, your mission is to provide them with useful information about our services and ultimately retrieve their name and address\n"
    ++ "\n"
    ++ "## SERVICES INFORMATION:\n"
    ++ "- The Codebender Accelerator program has weekly calls where we discuss state-of-the-art AI topics\n"
    ++ "- We also have a course teaching you how to build AI apps, and MUCH more!\n").data

/-- `VOICE` (src/index.js:52). -/
def VOICE : Str := "ballad".data

/-- Outbound messages on the VAPI socket: the one `start` configuration
message and `audio` chunk messages. -/
inductive VapiOutMsg
  | start (config : VapiConfig)
  | audio (chunk : Str)
  deriving Repr, DecidableEq

/-- The `sessionUpdate` message sent by the `vapiWs.on("open")` handler
(src/index.js:127-145). -/
def sessionUpdate : VapiOutMsg :=
  .start { encoding := "mulaw".data, sampleRate := 8000, voice := VOICE,
           prompt := SYSTEM_MESSAGE, temperature := 0.8 }

/-- Outbound messages on the Twilio socket: `media` events carrying
`{streamSid, payload}` (src/index.js:168-173). -/
inductive TwilioOutMsg
  | media (streamSid : Option Str) (payload : Str)
  deriving Repr, DecidableEq

/-- Prefix of a user transcript line: `👨‍💼 User: ` (src/index.js:157). -/
def userPrefix : Str := "👨‍💼 User: ".data

/-- Prefix of an agent transcript line: `🎙️ Agent: ` (src/index.js:163). -/
def agentPrefix : Str := "🎙️ Agent: ".data

/-- The Twilio-socket `message` handler (src/index.js:191-216): `media`
forwards the payload to VAPI only when `vapiWs.readyState === OPEN`,
`start` assigns `session.streamSid`, anything else is only logged.
Returns the updated session and the messages sent on the VAPI socket. -/
def handleTwilioMessage (vapiReadyState : WsState) (session : Session) :
    TwilioEvent → Session × List VapiOutMsg
  | .media payload =>
    if vapiReadyState = .OPEN then (session, [.audio payload])
    else (session, [])
  | .start streamSid => ({ session with streamSid := some streamSid }, [])
  | .other _ => (session, [])

/-- The VAPI-socket `message` handler (src/index.js:149-188): `transcript`
appends a trimmed user line, `assistant_response` appends an agent line
verbatim, `audio` is wrapped with the session's current `streamSid` and
sent on the Twilio socket, `error` and unrecognized types are only logged.
Returns the updated session and the messages sent on the Twilio socket. -/
def handleVapiMessage (session : Session) :
    VapiEvent → Session × List TwilioOutMsg
  | .transcript text =>
    ({ session with
        transcript := session.transcript ++ userPrefix ++ jsTrim text ++ ['\n'] }, [])
  | .assistant_response text =>
    ({ session with
        transcript := session.transcript ++ agentPrefix ++ text ++ ['\n'] }, [])
  | .audio chunk => (session, [.media session.streamSid chunk])
  | .error _ => (session, [])
  | .other _ => (session, [])

/-- The process-wide `sessions` `Map` (src/index.js:59), as an association
list from session id to session; `Map` keeps keys unique. -/
abbrev Registry := List (Str × Session)

/-- JS `Map.prototype.get`: the value at the key, or `none`. -/
def registryGet (r : Registry) (key : Str) : Option Session :=
  (r.find? (fun p => decide (p.1 = key))).map (·.2)

/-- JS `Map.prototype.set`: replace the entry at the key in place, or
append a new entry. -/
def registrySet : Registry → Str → Session → Registry
  | [], key, v => [(key, v)]
  | (k, w) :: rest, key, v =>
    if k = key then (key, v) :: rest else (k, w) :: registrySet rest key v

/-- JS `Map.prototype.delete`: remove the entry at the key, if present. -/
def registryDelete : Registry → Str → Registry
  | [], _ => []
  | (k, w) :: rest, key =>
    if k = key then rest else (k, w) :: registryDelete rest key

/-- One occurrence on either socket of one call session, in the order the
single-threaded event loop delivers the callbacks. -/
inductive Event
  | vapiOpen
  | vapiMessage (ev : VapiEvent)
  | twilioMessage (ev : TwilioEvent)
  | twilioClose
  | vapiClose
  | vapiError
  deriving Repr, DecidableEq

/-- Everything a session's handlers emit to the outside: messages on
either socket, and a hand-off of a transcript to the post-call extraction
collaborator (`processTranscriptAndSend`, src/index.js:308-339). -/
inductive Out
  | toVapi (msg : VapiOutMsg)
  | toTwilio (msg : TwilioOutMsg)
  | extraction (transcript : Str)
  deriving Repr, DecidableEq

/-- The state a single call session's handlers read and write: the ready
state of the VAPI socket and the session object. -/
structure SessionState where
  vapiReady : WsState
  sess : Session
  deriving Repr, DecidableEq

/-- The state of a freshly connected `/media-stream` client: the session
object is `{transcript: "", streamSid: null}` and `new WebSocket(...)`
starts in `CONNECTING`. -/
def initState : SessionState := { vapiReady := .CONNECTING, sess := initSession }

/-- One callback firing for the session registered under `sid`
(src/index.js:104-240):
* `vapiOpen` — `ws` moves the socket to `OPEN` and the handler sends the
  one `sessionUpdate` configuration message (lines 124-146);
* `vapiMessage` / `twilioMessage` — the two `message` handlers;
* `twilioClose` — closes the VAPI socket if it is open, replaces the
  transcript by its cleaned form, and deletes the registry entry
  (lines 228-239); it calls no extraction;
* `vapiClose` / `vapiError` — logged only (lines 219-225), `close` moves
  the socket to `CLOSED`. -/
def step (sid : Str) (st : SessionState) (r : Registry) :
    Event → SessionState × Registry × List Out
  | .vapiOpen => ({ st with vapiReady := .OPEN }, r, [.toVapi sessionUpdate])
  | .vapiMessage ev =>
    let p := handleVapiMessage st.sess ev
    ({ st with sess := p.1 }, r, p.2.map .toTwilio)
  | .twilioMessage ev =>
    let p := handleTwilioMessage st.vapiReady st.sess ev
    ({ st with sess := p.1 }, r, p.2.map .toVapi)
  | .twilioClose =>
    ({ vapiReady := if st.vapiReady = .OPEN then .CLOSING else st.vapiReady,
       sess := { st.sess with transcript := cleanTranscript st.sess.transcript } },
      registryDelete r sid, [])
  | .vapiClose => ({ st with vapiReady := .CLOSED }, r, [])
  | .vapiError => (st, r, [])

/-- Run a session's callbacks over a list of events, collecting every
emitted output in order. -/
def run (sid : Str) (st : SessionState) (r : Registry) :
    List Event → SessionState × Registry × List Out
  | [] => (st, r, [])
  | e :: es =>
    let p := step sid st r e
    let q := run sid p.1 p.2.1 es
    (q.1, q.2.1, p.2.2 ++ q.2.2)

/-- Is this output the session-start configuration message to VAPI? -/
def isConfigOut : Out → Bool
  | .toVapi (.start _) => true
  | _ => false

/-- Is this output an audio chunk forwarded to VAPI? -/
def isAudioToVapi : Out → Bool
  | .toVapi (.audio _) => true
  | _ => false

/-- Is this output a hand-off to post-call extraction? -/
def isExtractionOut : Out → Bool
  | .extraction _ => true
  | _ => false

/-- Is this event the VAPI socket's `open` callback? -/
def isVapiOpenEvent : Event → Bool
  | .vapiOpen => true
  | _ => false

/-! ### Lemmas about `splitChar`, `joinSep` and the transcript cleaner -/

/-- Unfolding equation of `splitChar` on a cons. -/
theorem splitChar_cons (c x : Char) (xs : Str) :
    splitChar c (x :: xs) =
      match splitChar c xs with
      | [] => [[]]
      | y :: ys => if x = c then [] :: y :: ys else (x :: y) :: ys := rfl

/-- `split` never returns an empty array. -/
theorem splitChar_ne_nil (c : Char) : (s : Str) → splitChar c s ≠ []
  | [] => by simp [splitChar]
  | x :: xs => by
    rw [splitChar_cons]
    cases h : splitChar c xs with
    | nil => simp
    | cons y ys => dsimp only; split <;> simp

/-- No piece produced by `split` contains the separator. -/
theorem splitChar_not_mem (c : Char) :
    (s : Str) → ∀ l ∈ splitChar c s, c ∉ l
  | [], l, hl => by
    simp only [splitChar, List.mem_singleton] at hl
    simp [hl]
  | x :: xs, l, hl => by
    have ih := splitChar_not_mem c xs
    revert hl
    rw [splitChar_cons]
    cases h : splitChar c xs with
    | nil => exact absurd h (splitChar_ne_nil c xs)
    | cons y ys =>
      dsimp only
      split
      · rename_i hxc
        subst hxc
        intro hl
        rcases List.mem_cons.mp hl with h1 | h2
        · simp [h1]
        · exact ih l (h ▸ h2)
      · rename_i hxc
        intro hl
        rcases List.mem_cons.mp hl with h1 | h2
        · subst h1
          intro hmem
          rcases List.mem_cons.mp hmem with h3 | h4
          · exact hxc h3.symm
          · exact ih y (h ▸ List.mem_cons_self y ys) h4
        · exact ih l (h ▸ List.mem_cons_of_mem y h2)

/-- Splitting a string that does not contain the separator yields the
one-element array holding it. -/
theorem splitChar_eq_single (c : Char) :
    (a : Str) → c ∉ a → splitChar c a = [a]
  | [], _ => by simp [splitChar]
  | x :: a, h => by
    have hx : x ≠ c := fun hxc => h (hxc ▸ List.mem_cons_self x a)
    have ha : c ∉ a := fun hc => h (List.mem_cons_of_mem x hc)
    rw [splitChar_cons, splitChar_eq_single c a ha]
    simp [hx]

/-- `split` of a string beginning with the separator yields a leading
empty piece. -/
theorem splitChar_sep_cons (c : Char) (t : Str) :
    splitChar c (c :: t) = [] :: splitChar c t := by
  rw [splitChar_cons]
  cases h : splitChar c t with
  | nil => exact absurd h (splitChar_ne_nil c t)
  | cons y ys => simp

/-- Peeling a separator-free prefix off a `split`. -/
theorem splitChar_append (c : Char) (t : Str) :
    (a : Str) → c ∉ a → splitChar c (a ++ c :: t) = a :: splitChar c t
  | [], _ => by
    simpa using splitChar_sep_cons c t
  | x :: a, h => by
    have hx : x ≠ c := fun hxc => h (hxc ▸ List.mem_cons_self x a)
    have ha : c ∉ a := fun hc => h (List.mem_cons_of_mem x hc)
    show splitChar c (x :: (a ++ c :: t)) = (x :: a) :: splitChar c t
    rw [splitChar_cons, splitChar_append c t a ha]
    simp [hx]

/-- A line surviving both filters of `cleanLines` passes both predicates
and came from the split of the input. -/
theorem mem_cleanLines {t : Str} {l : Str} (h : l ∈ cleanLines t) :
    l ∈ splitChar '\n' t ∧ jsIncludes l sentinel = false ∧
      (jsTrim l).isEmpty = false := by
  unfold cleanLines at h
  have h2 := List.mem_filter.mp h
  have h1 := List.mem_filter.mp h2.1
  refine ⟨h1.1, ?_, ?_⟩
  · simpa using h1.2
  · simpa using h2.2

/-- `cleanLines` recovers the pieces from a join of clean, separator-free
lines: the blank separator lines are dropped again and nothing else
changes. -/
theorem cleanLines_joinSep :
    (ks : List Str) →
    (∀ l ∈ ks, jsIncludes l sentinel = false ∧ (jsTrim l).isEmpty = false ∧
      '\n' ∉ l) →
    cleanLines (joinSep newline2 ks) = ks
  | [], _ => by decide
  | [k], h => by
    have hk := h k (List.mem_cons_self k [])
    unfold cleanLines joinSep
    rw [splitChar_eq_single '\n' k hk.2.2]
    simp [List.filter, hk.1, hk.2.1]
  | k :: k' :: ks, h => by
    have hk := h k (List.mem_cons_self k (k' :: ks))
    have hrest : ∀ l ∈ k' :: ks, jsIncludes l sentinel = false ∧
        (jsTrim l).isEmpty = false ∧ '\n' ∉ l :=
      fun l hl => h l (List.mem_cons_of_mem k hl)
    have ih := cleanLines_joinSep (k' :: ks) hrest
    have hj : joinSep newline2 (k :: k' :: ks) =
        k ++ '\n' :: '\n' :: joinSep newline2 (k' :: ks) := by
      rw [show joinSep newline2 (k :: k' :: ks) =
        k ++ newline2 ++ joinSep newline2 (k' :: ks) from rfl]
      simp [newline2]
    rw [hj]
    unfold cleanLines
    rw [splitChar_append '\n' ('\n' :: joinSep newline2 (k' :: ks)) k hk.2.2,
      splitChar_sep_cons]
    simp only [List.filter, hk.1, hk.2.1]
    unfold cleanLines at ih
    simpa using ih

/-! ### Lemmas about the session registry -/

/-- Lookup after `set` at the same key. -/
theorem registryGet_set_self (v : Session) :
    (r : Registry) → (k : Str) → registryGet (registrySet r k v) k = some v
  | [], k => by simp [registrySet, registryGet, List.find?]
  | (a, w) :: rest, k => by
    by_cases h : a = k
    · simp [registrySet, registryGet, List.find?, h]
    · simp only [registrySet, if_neg h]
      unfold registryGet
      simp only [List.find?, decide_eq_false h]
      exact registryGet_set_self v rest k

/-- Lookup after `set` at a different key is unchanged. -/
theorem registryGet_set_ne (v : Session) :
    (r : Registry) → (k k' : Str) → k ≠ k' →
      registryGet (registrySet r k' v) k = registryGet r k
  | [], k, k', h => by
    simp [registrySet, registryGet, List.find?, Ne.symm h]
  | (a, w) :: rest, k, k', h => by
    by_cases ha : a = k'
    · subst ha
      simp [registrySet, registryGet, List.find?, Ne.symm h]
    · simp only [registrySet, if_neg ha]
      unfold registryGet
      simp only [List.find?]
      by_cases hak : a = k
      · simp [hak]
      · simp only [decide_eq_false hak]
        exact registryGet_set_ne v rest k k' h

/-- Lookup after `delete` at a different key is unchanged. -/
theorem registryGet_delete_ne :
    (r : Registry) → (k k' : Str) → k ≠ k' →
      registryGet (registryDelete r k') k = registryGet r k
  | [], _, _, _ => rfl
  | (a, w) :: rest, k, k', h => by
    by_cases ha : a = k'
    · subst ha
      simp [registryDelete, registryGet, List.find?, Ne.symm h]
    · simp only [registryDelete, if_neg ha]
      unfold registryGet
      simp only [List.find?]
      by_cases hak : a = k
      · simp [hak]
      · simp only [decide_eq_false hak]
        exact registryGet_delete_ne rest k k' h

/-- Lookup of an absent key fails. -/
theorem registryGet_not_mem :
    (r : Registry) → (k : Str) → k ∉ r.map Prod.fst → registryGet r k = none
  | [], _, _ => rfl
  | (a, w) :: rest, k, h => by
    have ha : a ≠ k := fun hak => h (hak ▸ List.mem_map_of_mem Prod.fst
      (List.mem_cons_self (a, w) rest))
    unfold registryGet
    simp only [List.find?, decide_eq_false ha]
    exact registryGet_not_mem rest k
      (fun hm => h (List.mem_cons_of_mem _ hm))

/-- Deleting an absent key is the identity. -/
theorem registryDelete_not_mem :
    (r : Registry) → (k : Str) → k ∉ r.map Prod.fst → registryDelete r k = r
  | [], _, _ => rfl
  | (a, w) :: rest, k, h => by
    have ha : a ≠ k := fun hak => h (hak ▸ List.mem_map_of_mem Prod.fst
      (List.mem_cons_self (a, w) rest))
    simp only [registryDelete, if_neg ha]
    rw [registryDelete_not_mem rest k (fun hm => h (List.mem_cons_of_mem _ hm))]

/-- With unique keys (the `Map` invariant), a deleted key is gone. -/
theorem not_mem_keys_delete :
    (r : Registry) → (k : Str) → (r.map Prod.fst).Nodup →
      k ∉ (registryDelete r k).map Prod.fst
  | [], k, _ => by simp [registryDelete]
  | (a, w) :: rest, k, h => by
    simp only [List.map_cons, List.nodup_cons] at h
    by_cases ha : a = k
    · subst ha
      simp only [registryDelete, if_pos rfl]
      exact h.1
    · simp only [registryDelete, if_neg ha, List.map_cons, List.mem_cons]
      rintro (hak | hm)
      · exact ha hak.symm
      · exact not_mem_keys_delete rest k h.2 hm

/-- Count of an element in a filtered list. -/
theorem count_filter_eq (p : Str → Bool) (l : List Str) (a : Str) :
    (l.filter p).count a = if p a = true then l.count a else 0 := by
  split
  · exact List.count_filter ‹p a = true›
  · rw [List.count_eq_zero]
    intro hmem
    have h := (List.mem_filter.mp hmem).2
    simp_all

/-- The stream identifier carried by the last `start` event of a list,
with fallback `d` when there is none. -/
def lastStreamSid (d : Option Str) : List Event → Option Str
  | [] => d
  | e :: es =>
    lastStreamSid
      (match e with
        | .twilioMessage (.start sid) => some sid
        | _ => d) es

/-! ### The claims -/

/-- C2, as stated, is false: a later `start` event is not a no-op.
Processing `start "SS1"` and then `start "SS2"` leaves the stream
identifier at `"SS2"`, not at the value `"SS1"` set by the first one
(src/index.js:206 assigns unconditionally). -/
theorem C2_counterexample :
    (handleTwilioMessage .CONNECTING
        (handleTwilioMessage .CONNECTING initSession
          (.start "SS1".data)).1 (.start "SS2".data)).1.streamSid =
      some "SS2".data ∧
    some "SS2".data ≠ some "SS1".data := by decide

/-- Over any trace, the stream identifier ends up at the value carried by
the last `start` event, with the prior value as fallback. -/
theorem run_lastStreamSid (sid : Str) :
    (st : SessionState) → (r : Registry) → (es : List Event) →
    (run sid st r es).1.sess.streamSid = lastStreamSid st.sess.streamSid es
  | st, r, [] => rfl
  | st, r, e :: es => by
    show (run sid (step sid st r e).1 (step sid st r e).2.1 es).1.sess.streamSid = _
    cases e with
    | vapiOpen =>
      rw [run_lastStreamSid sid _ _ es]
      rfl
    | vapiMessage ev =>
      rw [run_lastStreamSid sid _ _ es]
      cases ev <;> rfl
    | twilioMessage ev =>
      rw [run_lastStreamSid sid _ _ es]
      cases ev with
      | media payload =>
        have hss : (step sid st r (.twilioMessage (.media payload))).1.sess = st.sess := by
          show (handleTwilioMessage st.vapiReady st.sess (.media payload)).1 = st.sess
          by_cases h : st.vapiReady = .OPEN <;> simp [handleTwilioMessage, h]
        rw [hss]
        rfl
      | start s => rfl
      | other s => rfl
    | twilioClose =>
      rw [run_lastStreamSid sid _ _ es]
      rfl
    | vapiClose =>
      rw [run_lastStreamSid sid _ _ es]
      rfl
    | vapiError =>
      rw [run_lastStreamSid sid _ _ es]
      rfl

/-- C2 amended: every `start` event overwrites the session's stream
identifier with the value it carries — the last occurrence wins. After
any event sequence, the stream identifier equals the identifier of the
last `start` event processed, or its prior value if none occurred. -/
theorem C2_amended_last_start_wins (sid : Str) (st : SessionState)
    (r : Registry) (es : List Event) :
    (run sid st r es).1.sess.streamSid = lastStreamSid st.sess.streamSid es :=
  run_lastStreamSid sid st r es

/-- C3, as stated, is false: `cleanTranscript` does not remove only the
lines *equal* to `"Agent: Agent message not found"` — it removes every
line *containing* that text (`line.includes(...)`, src/index.js:255).
The single-line transcript `"pre Agent: Agent message not found"` is
neither equal to the sentinel nor blank, yet it is not preserved: the
output is empty. -/
theorem C3_counterexample :
    cleanTranscript "pre Agent: Agent message not found".data = [] ∧
    "pre Agent: Agent message not found".data ≠ sentinel ∧
    (jsTrim "pre Agent: Agent message not found".data).isEmpty = false := by
  decide

/-- C3 amended: `cleanTranscript` removes exactly the lines that contain
`"Agent: Agent message not found"` as a substring and the lines that are
empty after trimming; every other line is preserved verbatim, with its
multiplicity, in the original order, and the output is those surviving
lines joined with blank-line separators. -/
theorem C3_amended_clean_removes_exactly (t line : Str) :
    (cleanLines t).count line =
      (if jsIncludes line sentinel = false ∧ (jsTrim line).isEmpty = false
        then (splitChar '\n' t).count line else 0) ∧
    List.Sublist (cleanLines t) (splitChar '\n' t) ∧
    cleanTranscript t = joinSep newline2 (cleanLines t) := by
  refine ⟨?_, ?_, rfl⟩
  · unfold cleanLines
    rw [count_filter_eq, count_filter_eq]
    by_cases h1 : jsIncludes line sentinel
    · simp [h1]
    · by_cases h2 : (jsTrim line).isEmpty
      · simp [h1, h2]
      · simp [h1, h2]
  · exact (List.filter_sublist _).trans (List.filter_sublist _)

/-- C4: cleaning a transcript is idempotent. Every line surviving one
pass passes both filters and contains no newline, so splitting the
rejoined output drops only the blank separator lines and keeps each
surviving line whole. -/
theorem C4_clean_idempotent (t : Str) :
    cleanTranscript (cleanTranscript t) = cleanTranscript t := by
  have hsub : ∀ l ∈ cleanLines t, jsIncludes l sentinel = false ∧
      (jsTrim l).isEmpty = false ∧ '\n' ∉ l := by
    intro l hl
    have h := mem_cleanLines hl
    exact ⟨h.2.1, h.2.2, splitChar_not_mem '\n' t l h.1⟩
  show joinSep newline2 (cleanLines (joinSep newline2 (cleanLines t))) =
    cleanTranscript t
  rw [cleanLines_joinSep (cleanLines t) hsub]
  rfl

/-- Trimming introduces no new characters. -/
theorem not_mem_jsTrim {c : Char} {s : Str} (h : c ∉ s) : c ∉ jsTrim s := by
  intro hc
  apply h
  unfold jsTrim at hc
  rw [List.mem_reverse] at hc
  have h1 := (List.dropWhile_sublist _).mem hc
  rw [List.mem_reverse] at h1
  exact (List.dropWhile_sublist _).mem h1

/-- A `media` event while the VAPI socket is not `OPEN` leaves the whole
step state untouched and sends nothing. -/
theorem step_media_not_open (sid : Str) (st : SessionState) (r : Registry)
    (payload : Str) (h : st.vapiReady ≠ .OPEN) :
    step sid st r (.twilioMessage (.media payload)) = (st, r, []) := by
  show ({ st with sess := (handleTwilioMessage st.vapiReady st.sess (.media payload)).1 },
      r, (handleTwilioMessage st.vapiReady st.sess (.media payload)).2.map Out.toVapi) =
    (st, r, [])
  rw [show handleTwilioMessage st.vapiReady st.sess (.media payload) = (st.sess, [])
    from by simp [handleTwilioMessage, h]]
  rfl

/-- Dropping a `media` event that arrived while the VAPI socket was not
`OPEN` from the trace changes nothing: it was not buffered anywhere. -/
theorem run_media_not_open (sid : Str) (st : SessionState) (r : Registry)
    (payload : Str) (es : List Event) (h : st.vapiReady ≠ .OPEN) :
    run sid st r (.twilioMessage (.media payload) :: es) = run sid st r es := by
  simp only [run, step_media_not_open sid st r payload h, List.nil_append]

/-- C5: a downstream `media` payload is forwarded to VAPI as an `audio`
message exactly when the VAPI socket is `OPEN`; otherwise it is dropped —
the session is unchanged, nothing is queued, and removing the event from
the trace changes nothing downstream (src/index.js:196-204). -/
theorem C5_media_dropped_or_forwarded (ws : WsState) (s : Session)
    (payload sid : Str) (st : SessionState) (r : Registry) (es : List Event)
    (h : st.vapiReady ≠ .OPEN) :
    handleTwilioMessage ws s (.media payload) =
      (s, if ws = .OPEN then [.audio payload] else []) ∧
    run sid st r (.twilioMessage (.media payload) :: es) = run sid st r es := by
  constructor
  · by_cases hw : ws = .OPEN <;> simp [handleTwilioMessage, hw]
  · exact run_media_not_open sid st r payload es h

/-- C5 witness: with the VAPI socket open the chunk `"abc"` is forwarded,
and with it still connecting the `media` event leaves the run unchanged. -/
theorem C5_witness :
    handleTwilioMessage .OPEN initSession (.media "abc".data) =
      (initSession, if WsState.OPEN = .OPEN then [.audio "abc".data] else []) ∧
    run "S".data initState [] [.twilioMessage (.media "abc".data)] =
      run "S".data initState [] [] :=
  C5_media_dropped_or_forwarded .OPEN initSession "abc".data "S".data initState
    [] [] (by decide)

/-- C6, as stated, is false: the transcript line appended for an upstream
`transcript` event with text `" hello "` is `"👨‍💼 User: hello"`
(src/index.js:157 prefixes the emoji), not `"User: hello"`. -/
theorem C6_counterexample :
    (handleVapiMessage initSession (.transcript " hello ".data)).1.transcript =
      "👨‍💼 User: hello\n".data ∧
    ("👨‍💼 User: hello".data : Str) ≠ "User: hello".data := by decide

/-- C6 amended: an upstream `transcript` event carrying text `t` appends
to the transcript exactly one newline-terminated line, equal to
`"👨‍💼 User: "` followed by `t` trimmed of leading and trailing
whitespace. -/
theorem C6_amended_user_line (s : Session) (text : Str) (h : '\n' ∉ text) :
    (handleVapiMessage s (.transcript text)).1.transcript =
      s.transcript ++ userPrefix ++ jsTrim text ++ ['\n'] ∧
    '\n' ∉ userPrefix ++ jsTrim text := by
  refine ⟨rfl, ?_⟩
  intro hmem
  rcases List.mem_append.mp hmem with h1 | h2
  · exact absurd h1 (by decide)
  · exact not_mem_jsTrim h h2

/-- C6 witness: the amended statement at text `" hi "`. -/
theorem C6_witness :
    (handleVapiMessage initSession (.transcript " hi ".data)).1.transcript =
      initSession.transcript ++ userPrefix ++ jsTrim " hi ".data ++ ['\n'] ∧
    '\n' ∉ userPrefix ++ jsTrim " hi ".data :=
  C6_amended_user_line initSession " hi ".data (by decide)

/-- C10: an upstream `audio` event arriving before any `start` has set
the stream identifier is not dropped: the handler still emits exactly one
downstream `media` message, with `streamSid` equal to `null`
(src/index.js:167-174 reads `session.streamSid`, still `null` from the
initialisation at src/index.js:109-112). -/
theorem C10_audio_with_null_streamSid (s : Session) (chunk : Str)
    (h : s.streamSid = none) :
    handleVapiMessage s (.audio chunk) = (s, [.media none chunk]) := by
  rw [show handleVapiMessage s (.audio chunk) = (s, [.media s.streamSid chunk])
    from rfl, h]

/-- C10 witness: the fresh session still has `streamSid = null`, and the
chunk `"xyz"` is forwarded with a `null` stream identifier. -/
theorem C10_witness :
    handleVapiMessage initSession (.audio "xyz".data) =
      (initSession, [.media none "xyz".data]) :=
  C10_audio_with_null_streamSid initSession "xyz".data rfl

/-- No audio chunk is sent to VAPI before the configuration message: the
outputs preceding the first configuration message contain no upstream
audio. -/
def audioOnlyAfterConfig (outs : List Out) : Bool :=
  (outs.takeWhile (fun o => !isConfigOut o)).all (fun o => !isAudioToVapi o)

/-- Each step emits the configuration message exactly on the VAPI `open`
callback and never otherwise. -/
theorem step_countP_config (sid : Str) (st : SessionState) (r : Registry)
    (e : Event) :
    ((step sid st r e).2.2).countP isConfigOut =
      if isVapiOpenEvent e = true then 1 else 0 := by
  cases e with
  | vapiOpen => rfl
  | vapiMessage ev => cases ev <;> rfl
  | twilioMessage ev =>
    cases ev with
    | media p =>
      by_cases h : st.vapiReady = .OPEN <;>
        simp [step, handleTwilioMessage, h, isConfigOut, isVapiOpenEvent]
    | start s => rfl
    | other s => rfl
  | twilioClose => rfl
  | vapiClose => rfl
  | vapiError => rfl

/-- Over a whole trace, the number of configuration messages sent equals
the number of VAPI `open` callbacks that fired. -/
theorem run_countP_config (sid : Str) :
    (st : SessionState) → (r : Registry) → (es : List Event) →
    ((run sid st r es).2.2).countP isConfigOut = es.countP isVapiOpenEvent
  | _, _, [] => rfl
  | st, r, e :: es => by
    show ((step sid st r e).2.2 ++
        (run sid (step sid st r e).1 (step sid st r e).2.1 es).2.2).countP
        isConfigOut = _
    rw [List.countP_append, step_countP_config, run_countP_config sid _ _ es,
      List.countP_cons]
    exact Nat.add_comm _ _

/-- As long as the VAPI socket has not yet fired `open`, a run emits no
audio chunk to VAPI before it emits the configuration message. -/
theorem run_no_audio_before_config (sid : Str) :
    (st : SessionState) → (r : Registry) → (es : List Event) →
    st.vapiReady ≠ .OPEN →
    audioOnlyAfterConfig (run sid st r es).2.2 = true
  | _, _, [], _ => rfl
  | st, r, .vapiOpen :: es, _ => by
    show audioOnlyAfterConfig (Out.toVapi sessionUpdate ::
      (run sid { st with vapiReady := .OPEN } r es).2.2) = true
    rfl
  | st, r, .vapiMessage ev :: es, h => by
    cases ev with
    | audio chunk =>
      show audioOnlyAfterConfig (Out.toTwilio (.media st.sess.streamSid chunk) ::
        (run sid st r es).2.2) = true
      have ih := run_no_audio_before_config sid st r es h
      unfold audioOnlyAfterConfig at ih ⊢
      simp only [List.takeWhile_cons, isConfigOut, Bool.not_false, if_true,
        List.all_cons, isAudioToVapi, Bool.true_and]
      exact ih
    | transcript text => exact run_no_audio_before_config sid _ r es h
    | assistant_response text => exact run_no_audio_before_config sid _ r es h
    | error m => exact run_no_audio_before_config sid _ r es h
    | other ty => exact run_no_audio_before_config sid _ r es h
  | st, r, .twilioMessage ev :: es, h => by
    cases ev with
    | media payload =>
      rw [run_media_not_open sid st r payload es h]
      exact run_no_audio_before_config sid st r es h
    | start s => exact run_no_audio_before_config sid _ r es h
    | other s => exact run_no_audio_before_config sid _ r es h
  | st, r, .twilioClose :: es, h => by
    have h' : (if st.vapiReady = .OPEN then WsState.CLOSING else st.vapiReady) ≠
        .OPEN := by
      rw [if_neg h]; exact h
    exact run_no_audio_before_config sid _ _ es h'
  | st, r, .vapiClose :: es, h =>
    run_no_audio_before_config sid { st with vapiReady := .CLOSED } r es
      (fun hc => WsState.noConfusion hc)
  | st, r, .vapiError :: es, h => run_no_audio_before_config sid st r es h

/-- C7: over any trace of a session whose VAPI socket starts out
`CONNECTING` and fires `open` exactly once (the WebSocket guarantee),
exactly one session-start configuration message is sent to VAPI, and no
audio chunk is forwarded to VAPI before it. -/
theorem C7_config_once_before_audio (sid : Str) (st : SessionState)
    (r : Registry) (es : List Event) (h1 : st.vapiReady = .CONNECTING)
    (h2 : es.countP isVapiOpenEvent = 1) :
    ((run sid st r es).2.2).countP isConfigOut = 1 ∧
    audioOnlyAfterConfig (run sid st r es).2.2 = true := by
  refine ⟨?_, ?_⟩
  · rw [run_countP_config]
    exact h2
  · exact run_no_audio_before_config sid st r es (by rw [h1]; decide)

/-- C7 witness: a fresh session whose trace is `open` followed by one
downstream media chunk. -/
theorem C7_witness :
    ((run "S".data initState []
        [.vapiOpen, .twilioMessage (.media "abc".data)]).2.2).countP
      isConfigOut = 1 ∧
    audioOnlyAfterConfig (run "S".data initState []
      [.vapiOpen, .twilioMessage (.media "abc".data)]).2.2 = true :=
  C7_config_once_before_audio "S".data initState []
    [.vapiOpen, .twilioMessage (.media "abc".data)] rfl (by decide)

/-- No step ever hands a transcript to the post-call extraction
collaborator. -/
theorem step_no_extraction (sid : Str) (st : SessionState) (r : Registry)
    (e : Event) :
    ((step sid st r e).2.2).all (fun o => !isExtractionOut o) = true := by
  cases e with
  | vapiOpen => rfl
  | vapiMessage ev => cases ev <;> rfl
  | twilioMessage ev =>
    cases ev with
    | media p =>
      by_cases h : st.vapiReady = .OPEN <;>
        simp [step, handleTwilioMessage, h, isExtractionOut]
    | start s => rfl
    | other s => rfl
  | twilioClose => rfl
  | vapiClose => rfl
  | vapiError => rfl

/-- A whole run never hands anything to post-call extraction. -/
theorem run_no_extraction (sid : Str) :
    (st : SessionState) → (r : Registry) → (es : List Event) →
    ((run sid st r es).2.2).all (fun o => !isExtractionOut o) = true
  | _, _, [] => rfl
  | st, r, e :: es => by
    show ((step sid st r e).2.2 ++
        (run sid (step sid st r e).1 (step sid st r e).2.1 es).2.2).all
        (fun o => !isExtractionOut o) = true
    rw [List.all_append, step_no_extraction,
      run_no_extraction sid (step sid st r e).1 (step sid st r e).2.1 es]
    rfl

/-- C1, as stated, is false of the code: no event of any session — in
particular not the downstream `close` that ends it — ever invokes the
post-call extraction collaborator. The close handler (src/index.js:228-239)
cleans the transcript and deletes the session but never calls
`processTranscriptAndSend` (src/index.js:308-339), which is dead code. -/
theorem C1_no_extraction_ever (sid : Str) (st : SessionState) (r : Registry)
    (es : List Event) :
    ((run sid st r es).2.2).all (fun o => !isExtractionOut o) = true :=
  run_no_extraction sid st r es

/-- C8: teardown is idempotent and happens only on downstream close.
With the `Map` invariant of unique keys: after the close handler runs,
the session id is absent from the registry; a second firing of the close
handler leaves the registry exactly as the first left it; and no other
event removes (or otherwise touches) any registry entry. -/
theorem C8_teardown_idempotent (sid : Str) (st st1 : SessionState)
    (r : Registry) (h : (r.map Prod.fst).Nodup) :
    registryGet (step sid st r .twilioClose).2.1 sid = none ∧
    (step sid st1 (step sid st r .twilioClose).2.1 .twilioClose).2.1 =
      (step sid st r .twilioClose).2.1 ∧
    ∀ e, e ≠ Event.twilioClose → (step sid st r e).2.1 = r := by
  refine ⟨?_, ?_, ?_⟩
  · show registryGet (registryDelete r sid) sid = none
    exact registryGet_not_mem _ _ (not_mem_keys_delete r sid h)
  · show registryDelete (registryDelete r sid) sid = registryDelete r sid
    exact registryDelete_not_mem _ _ (not_mem_keys_delete r sid h)
  · intro e he
    cases e with
    | vapiOpen => rfl
    | vapiMessage ev => rfl
    | twilioMessage ev => rfl
    | twilioClose => exact absurd rfl he
    | vapiClose => rfl
    | vapiError => rfl

/-- C8 witness: a registry holding session `"A"`, closed twice. -/
theorem C8_witness :
    registryGet (step "A".data initState [("A".data, initSession)]
      .twilioClose).2.1 "A".data = none ∧
    (step "A".data initState (step "A".data initState
        [("A".data, initSession)] .twilioClose).2.1 .twilioClose).2.1 =
      (step "A".data initState [("A".data, initSession)] .twilioClose).2.1 ∧
    ∀ e, e ≠ Event.twilioClose →
      (step "A".data initState [("A".data, initSession)] e).2.1 =
        [("A".data, initSession)] :=
  C8_teardown_idempotent "A".data initState initState
    [("A".data, initSession)] (by decide)

/-- C9: sessions of distinct call identifiers are isolated. Registering B
does not disturb what lookup by A sees; lookup by A after registering A
returns A's session (never B's); and no event handled on behalf of B's
session — including B's teardown — changes what lookup by A returns. -/
theorem C9_session_isolation (A B : Str) (hAB : A ≠ B) (r : Registry)
    (sA sB : Session) (st : SessionState) (e : Event) :
    registryGet (registrySet r B sB) A = registryGet r A ∧
    registryGet (registrySet r A sA) A = some sA ∧
    registryGet ((step B st (registrySet (registrySet r A sA) B sB) e).2.1)
      A = some sA := by
  have hGetAB : registryGet (registrySet (registrySet r A sA) B sB) A =
      some sA := by
    rw [registryGet_set_ne sB _ A B hAB, registryGet_set_self]
  refine ⟨registryGet_set_ne sB r A B hAB, registryGet_set_self sA r A, ?_⟩
  cases e with
  | twilioClose =>
    show registryGet
      (registryDelete (registrySet (registrySet r A sA) B sB) B) A = some sA
    rw [registryGet_delete_ne _ A B hAB]
    exact hGetAB
  | vapiOpen => exact hGetAB
  | vapiMessage ev => exact hGetAB
  | twilioMessage ev => exact hGetAB
  | vapiClose => exact hGetAB
  | vapiError => exact hGetAB

/-- C9 witness: identifiers `"A"` and `"B"`, with B's session torn down. -/
theorem C9_witness :
    registryGet (registrySet [] "B".data initSession) "A".data =
      registryGet [] "A".data ∧
    registryGet (registrySet [] "A".data initSession) "A".data =
      some initSession ∧
    registryGet ((step "B".data initState
        (registrySet (registrySet [] "A".data initSession) "B".data
          initSession) .twilioClose).2.1) "A".data = some initSession :=
  C9_session_isolation "A".data "B".data (by decide) [] initSession
    initSession initState .twilioClose

end VoiceAgent
